import Mathlib

/-
Verification of the es2csv export pipeline (src/esxport.py) against its
natural-language specification.  The Python module is shallowly embedded:
JSON scalar values become `JValue`, Python dicts (insertion ordered, unique
keys) become association lists `Jobj`, files become `Option` of their parsed
contents (`none` = the file does not exist), and code paths that may call
`sys.exit` or raise an uncaught exception return `Except Fault`.
-/

namespace Es2Csv

/-- JSON-like scalar values appearing in hit sources and hit metadata. -/
inductive JValue where
  | null : JValue
  | bool : Bool → JValue
  | num : Int → JValue
  | str : String → JValue
deriving DecidableEq, Repr

/-- A Python dict with string keys, in insertion order (a JSON object). -/
abbrev Jobj := List (String × JValue)

/-- Python dict lookup `d[k]` / `d.get(k)`: the first binding of the key. -/
def dictGet : Jobj → String → Option JValue
  | [], _ => none
  | p :: ps, k => if p.1 = k then some p.2 else dictGet ps k

/-- Python `d.pop(k, None)`: the dict with the binding for `k` removed
(Python dicts have unique keys, so removing every binding is the same). -/
def dictPop : Jobj → String → Jobj
  | [], _ => []
  | p :: ps, k => if p.1 = k then dictPop ps k else p :: dictPop ps k

/-- Python dict assignment `d[k] = v`: replace the binding in place if the
key is present, otherwise append the new binding at the end. -/
def dictSet : Jobj → String → JValue → Jobj
  | [], k, v => [(k, v)]
  | p :: ps, k, v => if p.1 = k then (k, v) :: ps else p :: dictSet ps k v

/-- Chunk of docs to flush in temp file (esxport.py line 19). -/
def FLUSH_BUFFER : Nat := 1000

/-- Default try count of the retry decorator (esxport.py line 21). -/
def TIMES_TO_TRY : Nat := 3

/-- Delay in seconds between retries (esxport.py line 22). -/
def RETRY_DELAY : Nat := 60

/-- How a Python code path ends when it does not return normally:
`sysExit c` models `sys.exit(c)`, `pyError name` models an uncaught
exception of the named class (which makes the interpreter exit nonzero). -/
inductive Fault where
  | sysExit : Nat → Fault
  | pyError : String → Fault
deriving DecidableEq, Repr

/-- Process exit status of a finished run: normal return gives 0,
`sys.exit(c)` gives `c`, an uncaught exception makes Python exit 1. -/
def exitCode : Except Fault Unit → Nat
  | .ok _ => 0
  | .error (.sysExit c) => c
  | .error (.pyError _) => 1

/-- The retry decorator loop (esxport.py lines 36-54).  `fails a = true`
means the wrapped call raises the designated transient error on attempt
number `a`.  `mtries` counts the remaining in-loop tries; when they are
exhausted one final attempt is made and a failure there is `sys.exit(1)`.
Returns the result together with the number of delay sleeps performed. -/
def retryLoop {α : Type} (fails : Nat → Bool) (body : Except Fault α) :
    Nat → Nat → Except Fault α × Nat
  | attempt, 0 => if fails attempt then (.error (.sysExit 1), 0) else (body, 0)
  | attempt, mtries + 1 =>
    if fails attempt then
      let r := retryLoop fails body (attempt + 1) mtries
      (r.1, r.2 + 1)
    else (body, 0)

/-- One run of a function wrapped by `@retry(ConnectionError, tries)`. -/
def retryRun {α : Type} (tries : Nat) (fails : Nat → Bool) (body : Except Fault α) :
    Except Fault α × Nat :=
  retryLoop fails body 0 tries

/-- One retrieved document: its `_source` mapping plus its hit-level
metadata keys (`_id`, `_index`, `_score`, ...), both insertion ordered. -/
structure Hit where
  source : Jobj
  meta : Jobj
deriving DecidableEq, Repr

/-- One page of scroll results: the scroll id and the hit list. -/
structure Page where
  scrollId : String
  hits : List Hit
deriving DecidableEq, Repr

/-- Python `hit.get(f, None)` used by `add_meta_fields` (line 237): the
hit-level metadata value, defaulting to `null` (None). -/
def metaVal (hit : Hit) (f : String) : JValue :=
  (dictGet hit.meta f).getD JValue.null

/-- The record staged for one hit by `flush_to_file` (lines 240-243):
`data = hit["_source"]`, then `data.pop("_meta", None)`, then
`data[f] = hit.get(f, None)` for each configured metadata field. -/
def processHit (metaFields : List String) (hit : Hit) : Jobj :=
  metaFields.foldl (fun d f => dictSet d f (metaVal hit f))
    (dictPop hit.source "_meta")

/-- `flush_to_file` (lines 231-245): open the staging file in append mode
(creating it when absent) and append one JSON line per hit. -/
def flushToFile (metaFields : List String) (hitList : List Hit)
    (tmp : Option (List Jobj)) : Option (List Jobj) :=
  some (tmp.getD [] ++ hitList.map (processHit metaFields))

/-- Mutable state of the streaming phase: `rows_written`, the scroll id
set, the in-memory batch `hit_list`, and the staging file contents. -/
structure StreamState where
  rowsWritten : Nat
  scrollIds : List String
  hitList : List Hit
  tmpFile : Option (List Jobj)
deriving Repr

/-- The inner `for hit in res["hits"]["hits"]` loop of `write_to_temp_file`
(lines 207-213): count each hit, append it to the batch, and flush the
batch when it reaches `FLUSH_BUFFER`. -/
def consumeHits (metaFields : List String) : List Hit → StreamState → StreamState
  | [], st => st
  | hit :: rest, st =>
    let pushed : StreamState :=
      { st with rowsWritten := st.rowsWritten + 1, hitList := st.hitList ++ [hit] }
    let next : StreamState :=
      if pushed.hitList.length = FLUSH_BUFFER then
        { pushed with
            tmpFile := flushToFile metaFields pushed.hitList pushed.tmpFile
            hitList := [] }
      else pushed
    consumeHits metaFields rest next

/-- Why the pagination loop stopped: the `while` condition became false
(`rows_written == total_size`), or a page with an empty hit list was
observed and the loop `break`s (lines 204-206). -/
inductive StreamExit where
  | reachedTotal : StreamExit
  | emptyPage : StreamExit
deriving DecidableEq, Repr

/-- The `while self.rows_written != total_size` loop of `write_to_temp_file`
(lines 200-214).  The list holds the pages the cluster returns in order
(the initial search response, then each `next_scroll` answer); once it is
exhausted the cursor is modelled as expired, i.e. every further page has an
empty hit list, which makes the loop break. -/
def streamLoop (metaFields : List String) (totalSize : Nat) :
    List Page → StreamState → StreamState × StreamExit
  | [], st =>
    if st.rowsWritten = totalSize then (st, .reachedTotal) else (st, .emptyPage)
  | p :: rest, st =>
    if st.rowsWritten = totalSize then (st, .reachedTotal)
    else
      let tracked : StreamState :=
        if p.scrollId ∈ st.scrollIds then st
        else { st with scrollIds := st.scrollIds ++ [p.scrollId] }
      if p.hits = [] then (tracked, .emptyPage)
      else streamLoop metaFields totalSize rest (consumeHits metaFields p.hits tracked)

/-- `write_to_temp_file` (lines 189-216): run the pagination loop with
`total_size = min(max_results, num_results)` and flush the remaining
partial batch at the end (the final `flush_to_file(hit_list)`). -/
def writeToTempFile (metaFields : List String) (maxResults numResults : Nat)
    (pages : List Page) (st : StreamState) : StreamState × StreamExit :=
  let totalSize := min maxResults numResults
  let r := streamLoop metaFields totalSize pages st
  ({ r.1 with
      tmpFile := flushToFile metaFields r.1.hitList r.1.tmpFile
      hitList := [] }, r.2)

/-- The streaming state at the start of a run: `rows_written = 0`, no
scroll ids, an empty batch, and no staging file on disk yet. -/
def initStream : StreamState := ⟨0, [], [], none⟩

/-- Total number of hits delivered across a sequence of pages. -/
def pageHits (pages : List Page) : Nat :=
  (pages.map (fun p => p.hits.length)).sum

/-- The staged lines a streaming state accounts for: the staging file
contents followed by the processed image of the still-buffered batch. -/
def stagedAll (metaFields : List String) (st : StreamState) : List Jobj :=
  st.tmpFile.getD [] ++ st.hitList.map (processHit metaFields)

/-- How Python's csv writer prints one cell: `str(v)`, with `None`
printed as the empty string. -/
def renderCell : JValue → String
  | .null => ""
  | .bool b => if b then "True" else "False"
  | .num n => toString n
  | .str s => s

/-- `csv.DictWriter.writerow` with the default `extrasaction="raise"` and
`restval=""` (line 254): a key outside the header list raises a
`ValueError`; a missing key is printed as the empty string. -/
def writerow (headers : List String) (row : Jobj) : Except Fault (List String) :=
  if ∀ p ∈ row, p.1 ∈ headers then
    .ok (headers.map (fun h => renderCell ((dictGet row h).getD JValue.null)))
  else .error (.pyError "ValueError")

/-- The `for line in file` loop of `write_to_csv` (lines 263-265): the data
rows written before any failure, and the exception if one was raised. -/
def writeRows (headers : List String) : List Jobj → List (List String) × Option Fault
  | [] => ([], none)
  | row :: rest =>
    match writerow headers row with
    | .ok cells =>
      let r := writeRows headers rest
      (cells :: r.1, r.2)
    | .error f => ([], some f)

/-- The final delimited output file: the configured delimiter and the rows
written so far (header row first).  Quoting is abstracted away: each row is
kept as its list of cell strings. -/
structure CsvFile where
  delim : Char
  rows : List (List String)
deriving DecidableEq, Repr

/-- What one call of `write_to_csv` leaves behind. -/
structure CsvResult where
  outcome : Except Fault Unit
  tmpFile : Option (List Jobj)
  outputFile : Option CsvFile
  logs : List String
deriving Repr

/-- The informational log of the zero-rows branch (lines 269-271). -/
def zeroDocsMsg (fields : List String) : String :=
  "There is no docs with selected field(s): " ++ String.intercalate "," fields ++ "."

/-- The log line of `search_query` (line 226). -/
def foundMsg (n : Nat) : String :=
  "Found " ++ toString n ++ " results."

/-- `write_to_csv` (lines 247-272).  With `rows_written > 0` it reads the
first staged line, takes that line's keys (in order) as the header, writes
the header row and then one data row per staged line; a `ValueError`
raised mid-loop propagates at once, skipping the trailing
`Path(self.tmp_file).unlink()`, so the staging file survives and the
output file keeps the rows written so far.  With `rows_written = 0` it
logs the informational message and goes straight to the unlink, which
raises `FileNotFoundError` when the staging file does not exist (the
unlink has no `missing_ok`). -/
def writeToCsv (rowsWritten : Nat) (delim : Char) (fields : List String)
    (tmp : Option (List Jobj)) : CsvResult :=
  if 0 < rowsWritten then
    match tmp with
    | none => ⟨.error (.pyError "FileNotFoundError"), none, none, []⟩
    | some [] => ⟨.error (.pyError "JSONDecodeError"), some [], none, []⟩
    | some (first :: rest) =>
      match writeRows (first.map Prod.fst) (first :: rest) with
      | (dataRows, none) =>
        ⟨.ok (), none, some ⟨delim, (first.map Prod.fst) :: dataRows⟩, []⟩
      | (dataRows, some f) =>
        ⟨.error f, some (first :: rest), some ⟨delim, (first.map Prod.fst) :: dataRows⟩, []⟩
  else
    match tmp with
    | none => ⟨.error (.pyError "FileNotFoundError"), none, none, [zeroDocsMsg fields]⟩
    | some _ => ⟨.ok (), none, none, [zeroDocsMsg fields]⟩

/-- The top-level component of a sort key: `sort_key.split(".")` and take
`parts[0]` (lines 144-146), i.e. the characters before the first dot. -/
def sortRoot (k : String) : String :=
  String.mk (k.toList.takeWhile (fun c => c ≠ '.'))

/-- The field list `_validate_fields` checks (lines 142-149): the
configured fields, then the top-level component of every sort key, with a
single occurrence of the wildcard `"_all"` removed if present. -/
def expectedFields (fields : List String) (sort : List (String × String)) : List String :=
  (fields ++ sort.map (fun s => sortRoot s.1)).erase "_all"

/-- The `for element in all_expected_fields` loop (lines 158-161):
`sys.exit(1)` on the first field missing from the union. -/
def checkFields : List String → List String → Except Fault Unit
  | [], _ => .ok ()
  | f :: rest, union =>
    if f ∈ union then checkFields rest union else .error (.sysExit 1)

/-- `EsXport._validate_fields` (lines 139-161).  `getMapping i` gives the
top-level property names of index `i`'s mapping; their union over the
target indices is the set requested fields are checked against. -/
def validateFields (fields : List String) (sort : List (String × String))
    (indices : List String) (getMapping : String → List String) : Except Fault Unit :=
  checkFields (expectedFields fields sort) ((indices.map getMapping).flatten)

/-- Body of `EsXport.check_indexes` (lines 124-137): keep `["_all"]` as-is
when the wildcard is configured, otherwise ask `indices_exists` (its
answer is `indexesStatus`) and `sys.exit(1)` when it is false.  Returns
the possibly narrowed index list. -/
def checkIndexes (indexPrefixes : List String) (indexesStatus : Bool) :
    Except Fault (List String) :=
  if "_all" ∈ indexPrefixes then .ok ["_all"]
  else if indexesStatus then .ok indexPrefixes
  else .error (.sysExit 1)

/-- The configuration consumed by the core (CliOptions fields used by
esxport.py). -/
structure CliOptions where
  indexPrefixes : List String
  fields : List String
  metaFields : List String
  sort : List (String × String)
  maxResults : Nat
  delimiter : Char

/-- The behaviour of the cluster during one run.  The `...Fails` schedules
say which attempts of the corresponding retry-wrapped call raise the
transient `ConnectionError`; `pages` is the sequence of scroll pages the
cluster returns (initial search response first). -/
structure Cluster where
  connectFails : Nat → Bool
  checkFails : Nat → Bool
  searchFails : Nat → Bool
  indicesExist : Bool
  getMapping : String → List String
  numResults : Nat
  pages : List Page

/-- What `search_query` leaves behind when it returns normally. -/
structure SearchOutcome where
  tmpFile : Option (List Jobj)
  rowsWritten : Nat
  logs : List String
deriving Repr

/-- Body of `EsXport.search_query` (lines 218-229): validate the fields,
record the reported total, and stream to the staging file only when the
total is positive. -/
def searchQueryBody (opts : CliOptions) (indexPrefixes : List String)
    (cl : Cluster) : Except Fault SearchOutcome :=
  match validateFields opts.fields opts.sort indexPrefixes cl.getMapping with
  | .error f => .error f
  | .ok _ =>
    if 0 < cl.numResults then
      let r := writeToTempFile opts.metaFields opts.maxResults cl.numResults cl.pages initStream
      .ok ⟨r.1.tmpFile, r.1.rowsWritten, [foundMsg cl.numResults]⟩
    else .ok ⟨none, 0, [foundMsg cl.numResults]⟩

/-- What a whole run leaves behind. -/
structure RunResult where
  outcome : Except Fault Unit
  tmpFile : Option (List Jobj)
  outputFile : Option CsvFile
  searchIssued : Bool
  rowsWritten : Nat
  sleeps : Nat
  logs : List String

/-- Modelled from the spec: the CLI orchestrator of this repository is not
under src/, so its sequencing is taken from spec section 2 — run
`create_connection`, `check_indexes`, `search_query` and `write_to_csv`
in that order, each of the first three through the retry policy; a fatal
exit in one step aborts the rest, and the best-effort scroll cleanup at
the very end swallows every error and has no observable effect here.
`searchIssued` records whether the run reached the search step; `sleeps`
counts the retry delays performed. -/
def runExport (opts : CliOptions) (cl : Cluster) : RunResult :=
  match retryRun TIMES_TO_TRY cl.connectFails (Except.ok ()) with
  | (.error f, s1) => ⟨.error f, none, none, false, 0, s1, []⟩
  | (.ok _, s1) =>
    match retryRun TIMES_TO_TRY cl.checkFails
        (checkIndexes opts.indexPrefixes cl.indicesExist) with
    | (.error f, s2) => ⟨.error f, none, none, false, 0, s1 + s2, []⟩
    | (.ok narrowed, s2) =>
      match retryRun TIMES_TO_TRY cl.searchFails (searchQueryBody opts narrowed cl) with
      | (.error f, s3) => ⟨.error f, none, none, true, 0, s1 + s2 + s3, []⟩
      | (.ok so, s3) =>
        let cr := writeToCsv so.rowsWritten opts.delimiter opts.fields so.tmpFile
        ⟨cr.outcome, cr.tmpFile, cr.outputFile, true, so.rowsWritten,
          s1 + s2 + s3, so.logs ++ cr.logs⟩

/-! Helper lemmas about the dict model. -/

theorem dictGet_dictSet (d : Jobj) (k g : String) (v : JValue) :
    dictGet (dictSet d k v) g = if g = k then some v else dictGet d g := by
  induction d with
  | nil =>
    by_cases h : g = k
    · subst h
      simp [dictSet, dictGet]
    · simp [dictSet, dictGet, h, Ne.symm h]
  | cons p ps ih =>
    by_cases hg : g = k
    · subst hg
      by_cases hp : p.1 = g
      · simp [dictSet, dictGet, hp]
      · simp [dictSet, dictGet, hp, ih]
    · by_cases hp : p.1 = k
      · simp [dictSet, dictGet, hp, hg, Ne.symm hg]
      · simp [dictSet, dictGet, hp, hg, ih]

theorem dictGet_dictPop (d : Jobj) (k g : String) :
    dictGet (dictPop d k) g = if g = k then none else dictGet d g := by
  induction d with
  | nil => simp [dictPop, dictGet]
  | cons p ps ih =>
    by_cases hg : g = k
    · subst hg
      by_cases hp : p.1 = g
      · simp [dictPop, dictGet, hp, ih]
      · simp [dictPop, dictGet, hp, ih]
    · by_cases hp : p.1 = k
      · simp [dictPop, dictGet, hp, hg, Ne.symm hg, ih]
      · simp [dictPop, dictGet, hp, hg, ih]

theorem dictGet_foldlSet (hit : Hit) (mf : List String) (d : Jobj) (g : String) :
    dictGet (mf.foldl (fun acc f => dictSet acc f (metaVal hit f)) d) g =
      if g ∈ mf then some (metaVal hit g) else dictGet d g := by
  induction mf generalizing d with
  | nil => simp
  | cons m rest ih =>
    simp only [List.foldl_cons]
    rw [ih]
    by_cases hg : g ∈ rest
    · simp [hg]
    · by_cases hgm : g = m
      · subst hgm
        simp [hg, dictGet_dictSet]
      · simp [hg, hgm, dictGet_dictSet]

theorem dictGet_processHit_mem (mf : List String) (hit : Hit) (f : String)
    (hf : f ∈ mf) :
    dictGet (processHit mf hit) f = some (metaVal hit f) := by
  simp [processHit, dictGet_foldlSet, hf]

theorem dictGet_processHit_meta (mf : List String) (hit : Hit)
    (hm : "_meta" ∉ mf) :
    dictGet (processHit mf hit) "_meta" = none := by
  simp [processHit, dictGet_foldlSet, hm, dictGet_dictPop]

/-! Helper lemmas about the streaming phase. -/

theorem consumeHits_rowsWritten (mf : List String) (hits : List Hit) (st : StreamState) :
    (consumeHits mf hits st).rowsWritten = st.rowsWritten + hits.length := by
  induction hits generalizing st with
  | nil => simp [consumeHits]
  | cons h rest ih =>
    simp only [consumeHits]
    by_cases hc : (st.hitList ++ [h]).length = FLUSH_BUFFER
    · rw [if_pos hc, ih]
      simp
      omega
    · rw [if_neg hc, ih]
      simp
      omega

theorem consumeHits_staged (mf : List String) (hits : List Hit) (st : StreamState) :
    stagedAll mf (consumeHits mf hits st) =
      stagedAll mf st ++ hits.map (processHit mf) := by
  induction hits generalizing st with
  | nil => simp [consumeHits]
  | cons h rest ih =>
    simp only [consumeHits]
    by_cases hc : (st.hitList ++ [h]).length = FLUSH_BUFFER
    · rw [if_pos hc, ih]
      simp [stagedAll, flushToFile]
    · rw [if_neg hc, ih]
      simp [stagedAll, flushToFile]

theorem pageHits_cons (p : Page) (rest : List Page) :
    pageHits (p :: rest) = p.hits.length + pageHits rest := by
  simp [pageHits]

theorem streamLoop_bound (mf : List String) (total : Nat) (pages : List Page)
    (st : StreamState) (h : st.rowsWritten + pageHits pages ≤ total) :
    (streamLoop mf total pages st).1.rowsWritten ≤ total ∧
      ((streamLoop mf total pages st).2 = StreamExit.reachedTotal ↔
        (streamLoop mf total pages st).1.rowsWritten = total) := by
  induction pages generalizing st with
  | nil =>
    have h0 : st.rowsWritten ≤ total := by
      simpa [pageHits] using h
    by_cases he : st.rowsWritten = total
    · simp [streamLoop, he]
    · simp [streamLoop, he, h0]
  | cons p rest ih =>
    by_cases he : st.rowsWritten = total
    · simp [streamLoop, he]
    · have hb : st.rowsWritten + (p.hits.length + pageHits rest) ≤ total := by
        rw [pageHits_cons] at h
        omega
      by_cases hid : p.scrollId ∈ st.scrollIds
      · by_cases hh : p.hits = []
        · simp only [streamLoop, if_neg he, if_pos hid, if_pos hh]
          refine ⟨by omega, ?_⟩
          simp [he]
        · simp only [streamLoop, if_neg he, if_pos hid, if_neg hh]
          apply ih
          rw [consumeHits_rowsWritten]
          omega
      · by_cases hh : p.hits = []
        · simp only [streamLoop, if_neg he, if_neg hid, if_pos hh]
          refine ⟨by omega, ?_⟩
          simp [he]
        · simp only [streamLoop, if_neg he, if_neg hid, if_neg hh]
          apply ih
          rw [consumeHits_rowsWritten]
          show st.rowsWritten + p.hits.length + pageHits rest ≤ total
          omega

theorem streamLoop_staged (mf : List String) (total : Nat) (pages : List Page)
    (st : StreamState) (hne : ∀ p ∈ pages, p.hits ≠ [])
    (h : st.rowsWritten + pageHits pages = total) :
    stagedAll mf (streamLoop mf total pages st).1 =
      stagedAll mf st ++ ((pages.map Page.hits).flatten).map (processHit mf) := by
  induction pages generalizing st with
  | nil =>
    have h0 : st.rowsWritten = total := by
      simpa [pageHits] using h
    simp [streamLoop, h0]
  | cons p rest ih =>
    have hp : p.hits ≠ [] := hne p (by simp)
    have hlen : 0 < p.hits.length := List.length_pos.mpr hp
    have he : st.rowsWritten ≠ total := by
      rw [pageHits_cons] at h
      omega
    have hrest : ∀ q ∈ rest, q.hits ≠ [] := fun q hq => hne q (by simp [hq])
    by_cases hid : p.scrollId ∈ st.scrollIds
    · simp only [streamLoop, if_neg he, if_pos hid, if_neg hp]
      rw [ih _ hrest]
      · rw [consumeHits_staged]
        simp [List.append_assoc]
      · rw [consumeHits_rowsWritten]
        rw [pageHits_cons] at h
        omega
    · simp only [streamLoop, if_neg he, if_neg hid, if_neg hp]
      rw [ih _ hrest]
      · rw [consumeHits_staged]
        simp [stagedAll, List.append_assoc]
      · rw [consumeHits_rowsWritten]
        rw [pageHits_cons] at h
        show st.rowsWritten + p.hits.length + pageHits rest = total
        omega

theorem writeToTempFile_tmpFile (mf : List String) (maxR numR : Nat)
    (pages : List Page) (st : StreamState) :
    (writeToTempFile mf maxR numR pages st).1.tmpFile =
      some (stagedAll mf (streamLoop mf (min maxR numR) pages st).1) := by
  simp [writeToTempFile, flushToFile, stagedAll]

theorem writeToTempFile_rowsWritten (mf : List String) (maxR numR : Nat)
    (pages : List Page) (st : StreamState) :
    (writeToTempFile mf maxR numR pages st).1.rowsWritten =
      (streamLoop mf (min maxR numR) pages st).1.rowsWritten := by
  simp [writeToTempFile]

theorem writeToTempFile_exit (mf : List String) (maxR numR : Nat)
    (pages : List Page) (st : StreamState) :
    (writeToTempFile mf maxR numR pages st).2 =
      (streamLoop mf (min maxR numR) pages st).2 := by
  simp [writeToTempFile]

/-! Helper lemmas about retry, validation and CSV materialization. -/

theorem retryLoop_first_ok {α : Type} (fails : Nat → Bool) (body : Except Fault α)
    (a t : Nat) (h : fails a = false) : retryLoop fails body a t = (body, 0) := by
  cases t with
  | zero => simp [retryLoop, h]
  | succ n => simp [retryLoop, h]

theorem retryRun_first_ok {α : Type} (tries : Nat) (fails : Nat → Bool)
    (body : Except Fault α) (h : fails 0 = false) :
    retryRun tries fails body = (body, 0) :=
  retryLoop_first_ok fails body 0 tries h

theorem retryLoop_all_fail {α : Type} (fails : Nat → Bool) (body : Except Fault α)
    (t : Nat) : ∀ a : Nat, (∀ i, a ≤ i → i ≤ a + t → fails i = true) →
    retryLoop fails body a t = (.error (.sysExit 1), t) := by
  induction t with
  | zero =>
    intro a h
    simp [retryLoop, h a le_rfl (by omega)]
  | succ n ih =>
    intro a h
    have ha : fails a = true := h a le_rfl (by omega)
    have hrec := ih (a + 1) (fun i h1 h2 => h i (by omega) (by omega))
    simp [retryLoop, ha, hrec]

theorem retryRun_exhaust {α : Type} (tries : Nat) (fails : Nat → Bool)
    (body : Except Fault α) (h : ∀ i, i ≤ tries → fails i = true) :
    retryRun tries fails body = (.error (.sysExit 1), tries) :=
  retryLoop_all_fail fails body tries 0 (fun i h1 h2 => h i (by omega))

theorem checkFields_error_iff (l union : List String) :
    checkFields l union = .error (.sysExit 1) ↔ ∃ f ∈ l, f ∉ union := by
  induction l with
  | nil => simp [checkFields]
  | cons f rest ih =>
    by_cases hf : f ∈ union
    · simp [checkFields, hf, ih]
    · simp [checkFields, hf]

theorem expectedFields_no_wildcard (fields : List String)
    (sort : List (String × String)) (hf : "_all" ∉ fields)
    (hs : ∀ s ∈ sort, sortRoot s.1 ≠ "_all") :
    expectedFields fields sort = fields ++ sort.map (fun s => sortRoot s.1) := by
  apply List.erase_of_not_mem
  intro hmem
  rcases List.mem_append.mp hmem with h | h
  · exact hf h
  · rcases List.mem_map.mp h with ⟨s, hsmem, hroot⟩
    exact hs s hsmem hroot

theorem checkIndexes_exists_ok (indexPrefixes : List String) :
    checkIndexes indexPrefixes true =
      .ok (if "_all" ∈ indexPrefixes then ["_all"] else indexPrefixes) := by
  by_cases h : "_all" ∈ indexPrefixes
  · simp [checkIndexes, h]
  · simp [checkIndexes, h]

theorem writeRows_all_ok (headers : List String) (lines : List Jobj)
    (h : ∀ line ∈ lines, ∀ p ∈ line, p.1 ∈ headers) :
    writeRows headers lines =
      (lines.map
        (fun line => headers.map (fun hd => renderCell ((dictGet line hd).getD JValue.null))),
       none) := by
  induction lines with
  | nil => simp [writeRows]
  | cons l rest ih =>
    have hl : ∀ p ∈ l, p.1 ∈ headers := h l (by simp)
    have hr := ih (fun line hm p hp => h line (by simp [hm]) p hp)
    simp only [writeRows, writerow]
    rw [if_pos hl, hr]
    simp

/-! Claim theorems. -/

/-- C9: a configured metadata field always ends up in the staged record
bound to the hit-level metadata value (null when the hit lacks that key),
overwriting any identically named source key; in particular a configured
metadata field named "_meta" is re-added after the reserved "_meta" key is
stripped, since stripping happens before the metadata merge. -/
theorem c9_meta_field_overrides (metaFields : List String) (hit : Hit) (f : String)
    (hf : f ∈ metaFields) :
    dictGet (processHit metaFields hit) f = some (metaVal hit f) :=
  dictGet_processHit_mem metaFields hit f hf

/-- Witness for C9: metadata field "_meta" on a hit whose source carries
"_meta" with value "s" and whose hit-level metadata holds "m"; the staged
record maps "_meta" to the metadata value "m". -/
theorem c9_meta_field_overrides_witness :
    "_meta" ∈ ["_meta"] ∧
    dictGet (processHit ["_meta"]
        ⟨[("_meta", JValue.str "s"), ("x", JValue.num 1)], [("_meta", JValue.str "m")]⟩) "_meta" =
      some (metaVal
        ⟨[("_meta", JValue.str "s"), ("x", JValue.num 1)], [("_meta", JValue.str "m")]⟩ "_meta") ∧
    metaVal ⟨[("_meta", JValue.str "s"), ("x", JValue.num 1)], [("_meta", JValue.str "m")]⟩ "_meta" =
      JValue.str "m" :=
  ⟨by decide, c9_meta_field_overrides _ _ _ (by decide), by decide⟩

/-- C10: the flush performed after the pagination loop opens the staging
file in append mode even when the remaining batch is empty, so whenever
the streaming phase runs the staging file exists afterwards — even when
zero rows were consumed, e.g. with configured maximum 0 — and an empty
flush leaves existing file content unchanged. -/
theorem c10_final_flush_creates_tmp (metaFields : List String) (maxR numR : Nat)
    (pages : List Page) :
    (writeToTempFile metaFields maxR numR pages initStream).1.tmpFile ≠ none ∧
    ∀ content : List Jobj, flushToFile metaFields [] (some content) = some content := by
  constructor
  · rw [writeToTempFile_tmpFile]
    simp
  · intro content
    simp [flushToFile]

/-- C2 (amended: provided the reserved key "_meta" is not itself among the
configured metadata fields): for every sequence of hit records delivered
across any sequence of non-empty pages totalling exactly the expected
result count, the staging file after the streaming phase holds exactly the
processed hits in arrival order, and each staged line lacks "_meta" and
maps every configured metadata field to the hit metadata value or null. -/
theorem c2_staging_contents (metaFields : List String) (maxR numR : Nat)
    (pages : List Page)
    (hne : ∀ p ∈ pages, p.hits ≠ [])
    (htot : pageHits pages = min maxR numR)
    (hmeta : "_meta" ∉ metaFields) :
    (writeToTempFile metaFields maxR numR pages initStream).1.tmpFile =
      some (((pages.map Page.hits).flatten).map (processHit metaFields)) ∧
    ∀ hit ∈ (pages.map Page.hits).flatten,
      dictGet (processHit metaFields hit) "_meta" = none ∧
      ∀ f ∈ metaFields, dictGet (processHit metaFields hit) f = some (metaVal hit f) := by
  constructor
  · rw [writeToTempFile_tmpFile]
    rw [streamLoop_staged metaFields (min maxR numR) pages initStream hne
      (by simpa [initStream] using htot)]
    simp [stagedAll, initStream]
  · intro hit _
    exact ⟨dictGet_processHit_meta metaFields hit hmeta,
      fun f hf => dictGet_processHit_mem metaFields hit f hf⟩

/-- C2 fails as stated when "_meta" itself is a configured metadata field:
with metadata fields ["_meta"] and one single-hit page, the staged line
contains the key "_meta", because the merge re-adds it after stripping. -/
theorem c2_counterexample :
    (writeToTempFile ["_meta"] 5 1
      [⟨"s", [⟨[("a", JValue.num 1)], [("_meta", JValue.str "m")]⟩]⟩] initStream).1.tmpFile =
      some [[("a", JValue.num 1), ("_meta", JValue.str "m")]] ∧
    ¬ (∀ line ∈ (writeToTempFile ["_meta"] 5 1
        [⟨"s", [⟨[("a", JValue.num 1)], [("_meta", JValue.str "m")]⟩]⟩]
        initStream).1.tmpFile.getD [],
        dictGet line "_meta" = none) :=
  ⟨by decide, by decide⟩

/-- Witness for C2 at a concrete input: one page, one hit, metadata field
"_id" present on the hit. -/
theorem c2_staging_contents_witness :
    ((∀ p ∈ ([⟨"s", [⟨[("a", JValue.num 1)], [("_id", JValue.str "x")]⟩]⟩] : List Page),
        p.hits ≠ []) ∧
      pageHits [⟨"s", [⟨[("a", JValue.num 1)], [("_id", JValue.str "x")]⟩]⟩] = min 3 1 ∧
      "_meta" ∉ ["_id"]) ∧
    ((writeToTempFile ["_id"] 3 1
        [⟨"s", [⟨[("a", JValue.num 1)], [("_id", JValue.str "x")]⟩]⟩] initStream).1.tmpFile =
      some ((([⟨"s", [⟨[("a", JValue.num 1)], [("_id", JValue.str "x")]⟩]⟩].map
        Page.hits).flatten).map (processHit ["_id"])) ∧
    ∀ hit ∈ ([⟨"s", [⟨[("a", JValue.num 1)], [("_id", JValue.str "x")]⟩]⟩].map Page.hits).flatten,
      dictGet (processHit ["_id"] hit) "_meta" = none ∧
      ∀ f ∈ ["_id"], dictGet (processHit ["_id"] hit) f = some (metaVal hit f)) :=
  ⟨⟨by decide, by decide, by decide⟩,
    c2_staging_contents ["_id"] 3 1 _ (by decide) (by decide) (by decide)⟩

/-- C4 (amended: provided the cluster delivers in total at most
expected_result_count hits across its pages): rows_written never exceeds
expected_result_count = min(max_results, num_results), and the pagination
loop exits through the while-condition (reachedTotal) exactly when
rows_written equals expected_result_count; otherwise it exits upon
observing a page with an empty hit list (an exhausted cursor). -/
theorem c4_rows_bounded (metaFields : List String) (maxR numR : Nat)
    (pages : List Page) (htot : pageHits pages ≤ min maxR numR) :
    (writeToTempFile metaFields maxR numR pages initStream).1.rowsWritten ≤ min maxR numR ∧
    ((writeToTempFile metaFields maxR numR pages initStream).2 = StreamExit.reachedTotal ↔
      (writeToTempFile metaFields maxR numR pages initStream).1.rowsWritten = min maxR numR) := by
  have hb := streamLoop_bound metaFields (min maxR numR) pages initStream
    (by simpa [initStream] using htot)
  rw [writeToTempFile_rowsWritten, writeToTempFile_exit]
  exact hb

/-- C4 fails as stated when a page carries more hits than remain needed:
expected_result_count is min 5 1 = 1, but the loop never truncates
mid-page, so the whole 2-hit page is consumed and rows_written reaches 2. -/
theorem c4_counterexample :
    min 5 1 <
      (writeToTempFile [] 5 1
        [⟨"s", [⟨[("a", JValue.num 1)], []⟩, ⟨[("a", JValue.num 2)], []⟩]⟩]
        initStream).1.rowsWritten := by decide

/-- C3 (amended: provided every staged line's keys are among the first
staged line's keys): with rows_written positive, materialization writes a
header row equal to the first staged line's keys in that line's order,
then one data row per staged line with values emitted in that header order
using the configured delimiter; the data-row count equals the staged line
count and the staging file is absent afterwards. -/
theorem c3_materialization (rowsWritten : Nat) (delim : Char) (fields : List String)
    (first : Jobj) (rest : List Jobj)
    (hrw : 0 < rowsWritten)
    (hkeys : ∀ line ∈ first :: rest, ∀ p ∈ line, p.1 ∈ first.map Prod.fst) :
    (writeToCsv rowsWritten delim fields (some (first :: rest))).outcome = .ok () ∧
    (writeToCsv rowsWritten delim fields (some (first :: rest))).outputFile =
      some ⟨delim, (first.map Prod.fst) ::
        (first :: rest).map (fun line =>
          (first.map Prod.fst).map (fun hd => renderCell ((dictGet line hd).getD JValue.null)))⟩ ∧
    ((first :: rest).map (fun line =>
        (first.map Prod.fst).map (fun hd => renderCell ((dictGet line hd).getD JValue.null)))).length =
      (first :: rest).length ∧
    (writeToCsv rowsWritten delim fields (some (first :: rest))).tmpFile = none := by
  have hw := writeRows_all_ok (first.map Prod.fst) (first :: rest) hkeys
  simp only [writeToCsv, if_pos hrw]
  rw [hw]
  exact ⟨rfl, rfl, by simp, rfl⟩

/-- C3 fails as stated on heterogeneous staged lines: the second line's
extra key "b" is outside the header taken from the first line, so the row
write raises ValueError; only one of the two staged lines becomes a data
row and the staging file survives materialization. -/
theorem c3_counterexample :
    (writeToCsv 2 ',' []
      (some [[("a", JValue.str "x")], [("a", JValue.str "y"), ("b", JValue.str "z")]])).outcome =
      .error (.pyError "ValueError") ∧
    (writeToCsv 2 ',' []
      (some [[("a", JValue.str "x")], [("a", JValue.str "y"), ("b", JValue.str "z")]])).outputFile =
      some ⟨',', [["a"], ["x"]]⟩ ∧
    (writeToCsv 2 ',' []
      (some [[("a", JValue.str "x")], [("a", JValue.str "y"), ("b", JValue.str "z")]])).tmpFile =
      some [[("a", JValue.str "x")], [("a", JValue.str "y"), ("b", JValue.str "z")]] :=
  ⟨rfl, rfl, rfl⟩

/-- Witness for C3 at a concrete input: two staged lines sharing the key
set of the first. -/
theorem c3_materialization_witness :
    (0 < 2 ∧ ∀ line ∈ ([("a", JValue.str "x")] :: [[("a", JValue.str "y")]]),
      ∀ p ∈ line, p.1 ∈ [("a", JValue.str "x")].map Prod.fst) ∧
    ((writeToCsv 2 ',' [] (some ([("a", JValue.str "x")] :: [[("a", JValue.str "y")]]))).outcome =
      .ok () ∧
    (writeToCsv 2 ',' [] (some ([("a", JValue.str "x")] :: [[("a", JValue.str "y")]]))).outputFile =
      some ⟨',', ([("a", JValue.str "x")].map Prod.fst) ::
        ([("a", JValue.str "x")] :: [[("a", JValue.str "y")]]).map (fun line =>
          ([("a", JValue.str "x")].map Prod.fst).map
            (fun hd => renderCell ((dictGet line hd).getD JValue.null)))⟩ ∧
    (([("a", JValue.str "x")] :: [[("a", JValue.str "y")]]).map (fun line =>
        ([("a", JValue.str "x")].map Prod.fst).map
          (fun hd => renderCell ((dictGet line hd).getD JValue.null)))).length =
      ([("a", JValue.str "x")] :: [[("a", JValue.str "y")]]).length ∧
    (writeToCsv 2 ',' [] (some ([("a", JValue.str "x")] :: [[("a", JValue.str "y")]]))).tmpFile =
      none) :=
  ⟨⟨by decide, by decide⟩, c3_materialization 2 ',' [] _ _ (by decide) (by decide)⟩

/-- C8 (amended): materialization deletes the staging file whenever the
step completes without raising; when parsing or writing a row raises
mid-loop, the exception propagates before the trailing unlink, so the
staging file then remains. -/
theorem c8_unlink_on_success (rowsWritten : Nat) (delim : Char)
    (fields : List String) (tmp : Option (List Jobj))
    (h : (writeToCsv rowsWritten delim fields tmp).outcome = .ok ()) :
    (writeToCsv rowsWritten delim fields tmp).tmpFile = none := by
  by_cases hrw : 0 < rowsWritten
  · cases tmp with
    | none => simp [writeToCsv, if_pos hrw] at h
    | some lines =>
      cases lines with
      | nil => simp [writeToCsv, if_pos hrw] at h
      | cons first rest =>
        simp only [writeToCsv, if_pos hrw] at h ⊢
        revert h
        rcases writeRows (first.map Prod.fst) (first :: rest) with ⟨rows, err⟩
        cases err with
        | none => intro h; rfl
        | some f => intro h; exact Except.noConfusion h
  · cases tmp with
    | none => simp [writeToCsv, hrw] at h
    | some lines => simp [writeToCsv, hrw]

/-- C8 fails as stated when a row write raises mid-loop: the ValueError
propagates before the unlink and the staging file is still present. -/
theorem c8_counterexample :
    (writeToCsv 2 ';' []
      (some [[("k", JValue.str "v")], [("k", JValue.str "v"), ("extra0", JValue.str "w")]])).outcome =
      .error (.pyError "ValueError") ∧
    (writeToCsv 2 ';' []
      (some [[("k", JValue.str "v")], [("k", JValue.str "v"), ("extra0", JValue.str "w")]])).tmpFile ≠
      none :=
  ⟨rfl, by decide⟩

/-- Witness for C8 at a concrete input: a homogeneous single staged line,
materialization succeeds and the staging file is gone. -/
theorem c8_unlink_on_success_witness :
    (writeToCsv 1 ':' ["f"] (some [[("a", JValue.str "x")]])).outcome = .ok () ∧
    (writeToCsv 1 ':' ["f"] (some [[("a", JValue.str "x")]])).tmpFile = none :=
  ⟨rfl, c8_unlink_on_success 1 ':' ["f"] (some [[("a", JValue.str "x")]]) rfl⟩

/-- C6 (amended: and no sort key's top-level component is the wildcard
"_all" either): for every configured field list without "_all", field
validation terminates the run with exit 1 iff at least one requested field
or sort-key top-level component is absent from the union over all target
indices of their top-level mapping property names. -/
theorem c6_validation_iff (fields : List String) (sort : List (String × String))
    (indices : List String) (getMapping : String → List String)
    (hf : "_all" ∉ fields)
    (hs : ∀ s ∈ sort, sortRoot s.1 ≠ "_all") :
    validateFields fields sort indices getMapping = .error (.sysExit 1) ↔
      ∃ f ∈ fields ++ sort.map (fun s => sortRoot s.1),
        f ∉ (indices.map getMapping).flatten := by
  rw [validateFields, expectedFields_no_wildcard fields sort hf hs]
  exact checkFields_error_iff _ _

/-- C6 fails as stated when a sort key's top-level component is "_all":
with sort key "_all.x" the root "_all" is removed from the expected list
instead of being validated, so validation succeeds even though "_all" is
absent from the schema union. -/
theorem c6_counterexample :
    validateFields [] [("_all.x", "asc")] ["i"] (fun _ => ["a"]) = .ok () ∧
    sortRoot "_all.x" ∈ ([] : List String) ++ [("_all.x", "asc")].map (fun s => sortRoot s.1) ∧
    sortRoot "_all.x" ∉ ((["i"].map (fun _ => ["a"])).flatten : List String) :=
  ⟨rfl, by decide, by decide⟩

/-- Witness for C6 at a concrete input: field "zz" is in no index mapping,
so validation exits and the missing-field condition holds. -/
theorem c6_validation_iff_witness :
    ("_all" ∉ ["a", "zz"] ∧
      ∀ s ∈ [("b.c", "asc")], sortRoot s.1 ≠ "_all") ∧
    (validateFields ["a", "zz"] [("b.c", "asc")] ["i", "j"]
        (fun ix => if ix = "i" then ["a", "b"] else ["c"]) = .error (.sysExit 1) ↔
      ∃ f ∈ ["a", "zz"] ++ [("b.c", "asc")].map (fun s => sortRoot s.1),
        f ∉ ((["i", "j"].map (fun ix => if ix = "i" then ["a", "b"] else ["c"])).flatten)) :=
  ⟨⟨by decide, by decide⟩, c6_validation_iff _ _ _ _ (by decide) (by decide)⟩

/-- C7: for every index-prefix list without the wildcard "_all", a negative
index-existence answer terminates the run with exit 1 immediately (no
retry delay is slept for the missing-index condition) and no search is
issued. -/
theorem c7_missing_index (opts : CliOptions) (cl : Cluster)
    (hconn : cl.connectFails 0 = false)
    (hchk : cl.checkFails 0 = false)
    (hall : "_all" ∉ opts.indexPrefixes)
    (hex : cl.indicesExist = false) :
    (runExport opts cl).outcome = .error (.sysExit 1) ∧
    exitCode (runExport opts cl).outcome = 1 ∧
    (runExport opts cl).searchIssued = false ∧
    (runExport opts cl).sleeps = 0 ∧
    (runExport opts cl).outputFile = none ∧
    (runExport opts cl).tmpFile = none := by
  have h1 := retryRun_first_ok TIMES_TO_TRY cl.connectFails
    ((Except.ok ()) : Except Fault Unit) hconn
  have h2 := retryRun_first_ok TIMES_TO_TRY cl.checkFails
    (checkIndexes opts.indexPrefixes cl.indicesExist) hchk
  have hidx : checkIndexes opts.indexPrefixes cl.indicesExist = .error (.sysExit 1) := by
    rw [hex]
    simp [checkIndexes, hall]
  rw [hidx] at h2
  simp [runExport, h1, hidx, h2, exitCode]

/-- Witness for C7 at a concrete input. -/
theorem c7_missing_index_witness :
    ((fun _ : Nat => false) 0 = false ∧ "_all" ∉ ["idx"]) ∧
    ((runExport ⟨["idx"], ["a"], [], [], 10, ','⟩
        ⟨fun _ => false, fun _ => false, fun _ => false, false, fun _ => ["a"], 0, []⟩).outcome =
      .error (.sysExit 1) ∧
    exitCode (runExport ⟨["idx"], ["a"], [], [], 10, ','⟩
        ⟨fun _ => false, fun _ => false, fun _ => false, false, fun _ => ["a"], 0, []⟩).outcome = 1 ∧
    (runExport ⟨["idx"], ["a"], [], [], 10, ','⟩
        ⟨fun _ => false, fun _ => false, fun _ => false, false, fun _ => ["a"], 0, []⟩).searchIssued =
      false ∧
    (runExport ⟨["idx"], ["a"], [], [], 10, ','⟩
        ⟨fun _ => false, fun _ => false, fun _ => false, false, fun _ => ["a"], 0, []⟩).sleeps = 0 ∧
    (runExport ⟨["idx"], ["a"], [], [], 10, ','⟩
        ⟨fun _ => false, fun _ => false, fun _ => false, false, fun _ => ["a"], 0, []⟩).outputFile =
      none ∧
    (runExport ⟨["idx"], ["a"], [], [], 10, ','⟩
        ⟨fun _ => false, fun _ => false, fun _ => false, false, fun _ => ["a"], 0, []⟩).tmpFile =
      none) :=
  ⟨⟨rfl, by decide⟩, c7_missing_index _ _ rfl rfl (by decide) rfl⟩

/-- C5 (amended: the transient error must strike four consecutive attempts
— the three in-loop tries, each followed by the fixed delay, plus the one
final attempt, since the decorator always makes tries+1 calls): the run
then exits with status 1 after the three retry delays, and no output file
is materialized from the staging file. -/
theorem c5_search_retry_exhaustion (opts : CliOptions) (cl : Cluster)
    (hconn : cl.connectFails 0 = false)
    (hchk : cl.checkFails 0 = false)
    (hex : cl.indicesExist = true)
    (hfail : ∀ i, i ≤ TIMES_TO_TRY → cl.searchFails i = true) :
    (runExport opts cl).outcome = .error (.sysExit 1) ∧
    exitCode (runExport opts cl).outcome = 1 ∧
    (runExport opts cl).outputFile = none ∧
    (runExport opts cl).tmpFile = none ∧
    (runExport opts cl).sleeps = TIMES_TO_TRY := by
  have h1 := retryRun_first_ok TIMES_TO_TRY cl.connectFails
    ((Except.ok ()) : Except Fault Unit) hconn
  have h2 := retryRun_first_ok TIMES_TO_TRY cl.checkFails
    (checkIndexes opts.indexPrefixes cl.indicesExist) hchk
  rw [hex, checkIndexes_exists_ok] at h2
  have h3 := retryRun_exhaust TIMES_TO_TRY cl.searchFails
    (searchQueryBody opts
      (if "_all" ∈ opts.indexPrefixes then ["_all"] else opts.indexPrefixes) cl) hfail
  simp [runExport, hex, checkIndexes_exists_ok, h1, h2, h3, exitCode]

/-- C5 fails as stated: the decorator makes a final fourth attempt after
the three in-loop tries, so a run whose initial search raises the
transient error on exactly the first three attempts (three delays are
slept) still completes with exit 0 and materializes the output file. -/
theorem c5_counterexample :
    (runExport ⟨["idx"], ["a"], [], [], 10, ','⟩
      ⟨fun _ => false, fun _ => false, fun i => decide (i < 3), true, fun _ => ["a"], 1,
        [⟨"s", [⟨[("a", JValue.str "v")], []⟩]⟩]⟩).outcome = .ok () ∧
    exitCode (runExport ⟨["idx"], ["a"], [], [], 10, ','⟩
      ⟨fun _ => false, fun _ => false, fun i => decide (i < 3), true, fun _ => ["a"], 1,
        [⟨"s", [⟨[("a", JValue.str "v")], []⟩]⟩]⟩).outcome = 0 ∧
    (runExport ⟨["idx"], ["a"], [], [], 10, ','⟩
      ⟨fun _ => false, fun _ => false, fun i => decide (i < 3), true, fun _ => ["a"], 1,
        [⟨"s", [⟨[("a", JValue.str "v")], []⟩]⟩]⟩).outputFile = some ⟨',', [["a"], ["v"]]⟩ ∧
    (runExport ⟨["idx"], ["a"], [], [], 10, ','⟩
      ⟨fun _ => false, fun _ => false, fun i => decide (i < 3), true, fun _ => ["a"], 1,
        [⟨"s", [⟨[("a", JValue.str "v")], []⟩]⟩]⟩).sleeps = 3 :=
  ⟨rfl, rfl, rfl, rfl⟩

/-- Witness for C5 at a concrete input: the search connection fails on
every attempt. -/
theorem c5_search_retry_exhaustion_witness :
    (∀ i, i ≤ TIMES_TO_TRY → (fun _ : Nat => true) i = true) ∧
    ((runExport ⟨["idx"], ["a"], [], [], 10, ','⟩
        ⟨fun _ => false, fun _ => false, fun _ => true, true, fun _ => ["a"], 1, []⟩).outcome =
      .error (.sysExit 1) ∧
    exitCode (runExport ⟨["idx"], ["a"], [], [], 10, ','⟩
        ⟨fun _ => false, fun _ => false, fun _ => true, true, fun _ => ["a"], 1, []⟩).outcome = 1 ∧
    (runExport ⟨["idx"], ["a"], [], [], 10, ','⟩
        ⟨fun _ => false, fun _ => false, fun _ => true, true, fun _ => ["a"], 1, []⟩).outputFile =
      none ∧
    (runExport ⟨["idx"], ["a"], [], [], 10, ','⟩
        ⟨fun _ => false, fun _ => false, fun _ => true, true, fun _ => ["a"], 1, []⟩).tmpFile =
      none ∧
    (runExport ⟨["idx"], ["a"], [], [], 10, ','⟩
        ⟨fun _ => false, fun _ => false, fun _ => true, true, fun _ => ["a"], 1, []⟩).sleeps =
      TIMES_TO_TRY) :=
  ⟨fun _ _ => rfl, c5_search_retry_exhaustion _ _ rfl rfl rfl (fun _ _ => rfl)⟩

/-- C1 evaluated at its failing input (zero matching documents): the zero
total skips streaming, so no staging file is ever created; write_to_csv
logs the informational message naming the requested fields and produces no
output file, but the trailing unlink of the absent staging file raises
FileNotFoundError, so the process exits nonzero — against the claimed exit
status 0 (the rest of the claim holds: no output file, message logged, no
staging file). -/
theorem c1_zero_docs_crash :
    (runExport ⟨["idx"], ["a"], [], [], 10, ','⟩
      ⟨fun _ => false, fun _ => false, fun _ => false, true, fun _ => ["a"], 0, []⟩).outcome =
      .error (.pyError "FileNotFoundError") ∧
    exitCode (runExport ⟨["idx"], ["a"], [], [], 10, ','⟩
      ⟨fun _ => false, fun _ => false, fun _ => false, true, fun _ => ["a"], 0, []⟩).outcome = 1 ∧
    (runExport ⟨["idx"], ["a"], [], [], 10, ','⟩
      ⟨fun _ => false, fun _ => false, fun _ => false, true, fun _ => ["a"], 0, []⟩).outputFile =
      none ∧
    (runExport ⟨["idx"], ["a"], [], [], 10, ','⟩
      ⟨fun _ => false, fun _ => false, fun _ => false, true, fun _ => ["a"], 0, []⟩).tmpFile =
      none ∧
    (runExport ⟨["idx"], ["a"], [], [], 10, ','⟩
      ⟨fun _ => false, fun _ => false, fun _ => false, true, fun _ => ["a"], 0, []⟩).logs =
      [foundMsg 0, zeroDocsMsg ["a"]] :=
  ⟨rfl, rfl, rfl, rfl, rfl⟩

/-- Witness for C4 at a concrete input: one 2-hit page with expected
result count min 2 7 = 2. -/
theorem c4_rows_bounded_witness :
    pageHits [⟨"s", [⟨[("a", JValue.num 1)], []⟩, ⟨[("b", JValue.num 2)], []⟩]⟩] ≤ min 2 7 ∧
    ((writeToTempFile [] 2 7
        [⟨"s", [⟨[("a", JValue.num 1)], []⟩, ⟨[("b", JValue.num 2)], []⟩]⟩]
        initStream).1.rowsWritten ≤ min 2 7 ∧
      ((writeToTempFile [] 2 7
          [⟨"s", [⟨[("a", JValue.num 1)], []⟩, ⟨[("b", JValue.num 2)], []⟩]⟩]
          initStream).2 = StreamExit.reachedTotal ↔
        (writeToTempFile [] 2 7
          [⟨"s", [⟨[("a", JValue.num 1)], []⟩, ⟨[("b", JValue.num 2)], []⟩]⟩]
          initStream).1.rowsWritten = min 2 7)) :=
  ⟨by decide, c4_rows_bounded [] 2 7 _ (by decide)⟩

end Es2Csv
